import Mathlib

/-!
Shallow embedding of the type-effectiveness calculator, quiz scoring,
expiring client cache, preload sequencer and retry loop of the
PokemonWebsite repository, together with theorems settling the frozen
claims about them.

Sources embedded:
  * src/lib/pokemonTypes.ts              (the 18-entry type registry)
  * src/app/guesser/page.tsx             (quiz calculator, scoring, retries)
  * src/app/pokedex/[pokemonName]/page.tsx
                                         (detail-page calculator, levitate
                                          override, cache, preloading)
  * src/contexts/PokedexContext.tsx      (24-hour list cache window)

Multipliers are modelled as rationals (JS numbers here only ever hold
exact dyadic values: products of 0, 0.5, 1, 2). Remote fetches are
modelled by oracles returning `Option`: `none` is a rejected promise or
non-ok response, exactly the cases the source's try/catch handles.
-/

namespace PokemonWebsite

/-- JS `String.prototype.toLowerCase()` as used throughout the source:
per-character lowercasing (all names involved are ASCII). -/
def jsToLower (s : String) : String := String.mk (s.data.map Char.toLower)

/-- `TypeData` from src/lib/pokemonTypes.ts. -/
structure TypeData where
  id : String
  name : String
  color : String
  textColor : Option String
deriving DecidableEq

/-- `POKEMON_TYPES` from src/lib/pokemonTypes.ts (identical list in
src/app/guesser/page.tsx): the 18-entry registry, canonical order. -/
def POKEMON_TYPES : List TypeData := [
  ⟨"type-normal", "Normal", "#A8A77A", some "#000000"⟩,
  ⟨"type-fire", "Fire", "#EE8130", some "#FFFFFF"⟩,
  ⟨"type-water", "Water", "#6390F0", some "#FFFFFF"⟩,
  ⟨"type-electric", "Electric", "#F7D02C", some "#000000"⟩,
  ⟨"type-grass", "Grass", "#7AC74C", some "#000000"⟩,
  ⟨"type-ice", "Ice", "#96D9D6", some "#000000"⟩,
  ⟨"type-fighting", "Fighting", "#C22E28", some "#FFFFFF"⟩,
  ⟨"type-poison", "Poison", "#A33EA1", some "#FFFFFF"⟩,
  ⟨"type-ground", "Ground", "#E2BF65", some "#000000"⟩,
  ⟨"type-flying", "Flying", "#A98FF3", some "#000000"⟩,
  ⟨"type-psychic", "Psychic", "#F95587", some "#FFFFFF"⟩,
  ⟨"type-bug", "Bug", "#A6B91A", some "#000000"⟩,
  ⟨"type-rock", "Rock", "#B6A136", some "#000000"⟩,
  ⟨"type-ghost", "Ghost", "#735797", some "#FFFFFF"⟩,
  ⟨"type-dragon", "Dragon", "#6F35FC", some "#FFFFFF"⟩,
  ⟨"type-steel", "Steel", "#B7B7CE", some "#000000"⟩,
  ⟨"type-dark", "Dark", "#705746", some "#FFFFFF"⟩,
  ⟨"type-fairy", "Fairy", "#D685AD", some "#000000"⟩]

/-- The `damage_relations` triple of a defending type, as delivered by
the remote API: three lists of attacking-type names. -/
structure DamageRelations where
  double_damage_from : List String
  half_damage_from : List String
  no_damage_from : List String
deriving DecidableEq

/-! ## Guesser calculator (src/app/guesser/page.tsx, `calculateEffectiveness`)

For each attacking type the source walks the defending relations and
picks `currentMultiplier` by a first-match if/else chain comparing the
relation's raw names against the lowercased attacking name, then folds
the factors into `finalMultiplier` by multiplication. -/

/-- The per-relation factor of the guesser's inner loop: 2 / 0.5 / 0 by
first membership test of the lowercased attacking name `a` among the
relation's raw names, else 1. -/
def typeFactor (rel : DamageRelations) (a : String) : ℚ :=
  if a ∈ rel.double_damage_from then 2
  else if a ∈ rel.half_damage_from then 1/2
  else if a ∈ rel.no_damage_from then 0
  else 1

/-- The `calculatedEffectivenessMap` built by the guesser: one entry per
registry type (keyed by its display name), value the fold of the
per-relation factors starting from 1. -/
def calculatedEffectivenessMap (rels : List DamageRelations) :
    List (String × ℚ) :=
  POKEMON_TYPES.map (fun atk =>
    (atk.name, rels.foldl (fun m rel => m * typeFactor rel (jsToLower atk.name)) 1))

/-! ## Detail-page calculator
(src/app/pokedex/[pokemonName]/page.tsx, `fetchPageSpecificDetails`)

The source initializes a record keyed by the lowercased registry names
to 1 and then, for every fetched defending relation, multiplies the
entry for each listed name by 2 / 0.5 / 0 via three forEach loops.
A multiplication whose key is absent from the record is modelled as a
no-op: in the source it would store a NaN under a key outside the
18-entry registry, and the final table reads only the registry keys, so
such entries are never observable. -/

/-- `record[key] *= c` over the association-list model of the record:
every binding of `key` gets its value multiplied by `c`. -/
def recordMul (m : List (String × ℚ)) (key : String) (c : ℚ) :
    List (String × ℚ) :=
  m.map (fun p => if p.1 = key then (p.1, p.2 * c) else p)

/-- `record[key] = v`: overwrite the binding if present, append it
otherwise (JS property-assignment semantics). -/
def recordSet (m : List (String × ℚ)) (key : String) (v : ℚ) :
    List (String × ℚ) :=
  if m.any (fun p => p.1 = key) then
    m.map (fun p => if p.1 = key then (p.1, v) else p)
  else m ++ [(key, v)]

/-- The `effectivenessMap` after its initialization loop: every
lowercased registry name bound to 1. -/
def initialEffectivenessMap : List (String × ℚ) :=
  POKEMON_TYPES.map (fun pt => (jsToLower pt.name, 1))

/-- One fetched defending relation applied to the record: the three
forEach loops of the source, multiplying by 2, 0.5 and 0 at the
lowercased relation names. -/
def applyTypeDetail (m : List (String × ℚ)) (rel : DamageRelations) :
    List (String × ℚ) :=
  let m1 := rel.double_damage_from.foldl
    (fun acc t => recordMul acc (jsToLower t) 2) m
  let m2 := rel.half_damage_from.foldl
    (fun acc t => recordMul acc (jsToLower t) (1/2)) m1
  rel.no_damage_from.foldl (fun acc t => recordMul acc (jsToLower t) 0) m2

/-- The `effectivenessMap` after all fetched relations are applied,
before the ability override. -/
def baseEffectivenessMap (rels : List DamageRelations) :
    List (String × ℚ) :=
  rels.foldl applyTypeDetail initialEffectivenessMap

/-- `baseData.abilities.some(a => a.ability.name.toLowerCase() ===
'levitate')`, over the list of ability names. -/
def hasLevitate (abilities : List String) : Bool :=
  abilities.any (fun a => jsToLower a = "levitate")

/-- The levitate override: when the ability is present and the current
`ground` entry is not 0, force it to 0 and produce the annotation;
otherwise leave the record alone and produce no annotation. -/
def applyLevitateOverride (m : List (String × ℚ))
    (abilities : List String) : List (String × ℚ) × Option String :=
  if hasLevitate abilities ∧ m.lookup "ground" ≠ some 0 then
    (recordSet m "ground" 0, some "Immune to Ground due to Levitate.")
  else (m, none)

/-- The final 18-entry table the page renders: one entry per registry
type, value looked up at the lowercased name with default 1 (the
source's `?? 1`). The display-only descending sort that follows in the
source merely reorders entries and is omitted. -/
def effectivenessTable (m : List (String × ℚ)) : List (String × ℚ) :=
  POKEMON_TYPES.map (fun t => (t.name, (m.lookup (jsToLower t.name)).getD 1))

/-- The effectiveness slice of `fetchPageSpecificDetails` after all
relation fetches succeeded: the rendered table plus the optional
`abilityEffectOnGround` annotation. -/
def pageEffectiveness (rels : List DamageRelations)
    (abilities : List String) : List (String × ℚ) × Option String :=
  let r := applyLevitateOverride (baseEffectivenessMap rels) abilities
  (effectivenessTable r.1, r.2)

/-! ## Fetch failure propagation

`Promise.all` over the per-defending-type fetches: the batch result is
available only when every member fetch succeeded. -/

/-- `Promise.all(urls.map(fetch))`: `none` as soon as any member fetch
fails, otherwise the list of all results in order. -/
def fetchAll (oracle : String → Option DamageRelations) :
    List String → Option (List DamageRelations)
  | [] => some []
  | u :: us =>
    match oracle u with
    | none => none
    | some r => (fetchAll oracle us).map (fun rs => r :: rs)

/-- The guesser's `calculateEffectiveness`: fetch every defending
type's relations, and only if all succeed build the map; a failed fetch
rejects the whole computation (no map is stored). -/
def calculateEffectiveness (oracle : String → Option DamageRelations)
    (typeUrls : List String) : Option (List (String × ℚ)) :=
  (fetchAll oracle typeUrls).map calculatedEffectivenessMap

/-- The effectiveness slice of the detail page's
`fetchPageSpecificDetails`: on any failed relation fetch the whole
computation lands in the catch block, which sets the page error and
stores no table; on success the table and annotation are produced. -/
def fetchPageSpecificDetails (oracle : String → Option DamageRelations)
    (typeUrls : List String) (abilities : List String) :
    Except String (List (String × ℚ) × Option String) :=
  match fetchAll oracle typeUrls with
  | none => Except.error "Failed to load some details"
  | some rels => Except.ok (pageEffectiveness rels abilities)

/-! ## Quiz scoring (src/app/guesser/page.tsx, `handleCheckAnswers`) -/

/-- The result states of a type chip after checking. -/
inductive TypeCheckResult where
  | NONE
  | CORRECT
  | INCORRECT
  | MISSED
deriving DecidableEq

/-- `correctEffectiveness.get(type.name) || 1`: an absent key yields
`undefined`, a stored 0 is falsy, and both default to 1. -/
def effLookup (eff : List (String × ℚ)) (name : String) : ℚ :=
  match eff.lookup name with
  | some v => if v = 0 then 1 else v
  | none => 1

/-- The fixed super-effective threshold: defaulted multiplier at least 2. -/
def isSuperEffective (eff : List (String × ℚ)) (name : String) : Bool :=
  decide (2 ≤ effLookup eff name)

/-- The label `handleCheckAnswers` assigns to one type chip, from the
selection set and the defaulted multiplier. -/
def classifyType (eff : List (String × ℚ)) (sel : List String)
    (name : String) : TypeCheckResult :=
  if name ∈ sel then
    if isSuperEffective eff name then .CORRECT else .INCORRECT
  else
    if isSuperEffective eff name then .MISSED else .NONE

/-- The `results` map: every registry type labelled. -/
def checkResults (eff : List (String × ℚ)) (sel : List String) :
    List (String × TypeCheckResult) :=
  POKEMON_TYPES.map (fun t => (t.name, classifyType eff sel t.name))

/-- The pair `(allCorrectlySelected, anySuperEffectiveMissed)` as
mutated by the source's forEach: an INCORRECT chip clears the first
flag, a MISSED chip clears the first and sets the second. -/
def checkFlags (eff : List (String × ℚ)) (sel : List String) :
    Bool × Bool :=
  POKEMON_TYPES.foldl (fun acc t =>
    match classifyType eff sel t.name with
    | .INCORRECT => (false, acc.2)
    | .MISSED => (false, true)
    | _ => acc) (true, false)

/-- `hasAnySuperEffectiveForCurrentPokemon`: the source iterates the
raw stored map values, not the defaulted lookups. -/
def hasAnySuperEffective (eff : List (String × ℚ)) : Bool :=
  eff.any (fun p => decide (2 ≤ p.2))

/-- The `gameWon` decision of `handleCheckAnswers`:
`allCorrectlySelected && !anySuperEffectiveMissed`, and then at least
one selection required whenever the stored map holds a super-effective
multiplier. -/
def gameWon (eff : List (String × ℚ)) (sel : List String) : Bool :=
  if (checkFlags eff sel).1 && !(checkFlags eff sel).2 then
    if hasAnySuperEffective eff then decide (0 < sel.length) else true
  else false

/-- Modelled from the spec (for the refinement claim on the win
predicate): win iff no incorrect selection, no missed type, and at
least one selection whenever some registry type is super effective. -/
def specWin (eff : List (String × ℚ)) (sel : List String) : Prop :=
  (∀ t ∈ POKEMON_TYPES, t.name ∈ sel → 2 ≤ effLookup eff t.name) ∧
  (∀ t ∈ POKEMON_TYPES, 2 ≤ effLookup eff t.name → t.name ∈ sel) ∧
  ((∃ t ∈ POKEMON_TYPES, 2 ≤ effLookup eff t.name) → sel ≠ [])

/-! ## Expiring client cache
(src/app/pokedex/[pokemonName]/page.tsx `pokemonDataCache`,
src/contexts/PokedexContext.tsx localStorage entry) -/

/-- A cache value `{ data, timestamp }`; times in epoch milliseconds. -/
structure CacheEntry (α : Type) where
  data : α
  timestamp : ℕ
deriving DecidableEq

/-- `CACHE_EXPIRY_MS = 5 * 60 * 1000` (detail records). -/
def CACHE_EXPIRY_MS : ℕ := 5 * 60 * 1000

/-- `CACHE_DURATION_MS = 24 * 60 * 60 * 1000` (minimal list). -/
def CACHE_DURATION_MS : ℕ := 24 * 60 * 60 * 1000

/-- A cache is a partial key-value store. -/
def CacheMap (α : Type) : Type := String → Option (CacheEntry α)

/-- `cache.set(key, { data, timestamp: now })`. -/
def cachePut {α : Type} (cache : CacheMap α) (key : String) (v : α)
    (now : ℕ) : CacheMap α :=
  fun k => if k = key then some ⟨v, now⟩ else cache k

/-- The freshness test `now - entry.timestamp < window` applied by both
cache readers, as a lookup returning the stored data only while the
window has not elapsed. -/
def cacheGet {α : Type} (cache : CacheMap α) (key : String) (now : ℕ)
    (window : ℕ) : Option α :=
  match cache key with
  | some e => if now - e.timestamp < window then some e.data else none
  | none => none

/-! ## Detail fetch with cache and preload flag
(src/app/pokedex/[pokemonName]/page.tsx, `fetchPokemonDataByNameOrId`) -/

/-- Outcome of one `fetchPokemonDataByNameOrId` call: the returned
value, the cache afterwards, and whether a network fetch was issued. -/
structure FetchOutcome (α : Type) where
  res : Option α
  cache : CacheMap α
  didFetch : Bool

/-- `fetchPokemonDataByNameOrId(identifier, isPreload)` over a fetch
oracle: a fresh cache entry is returned directly; a preload call that
finds any entry (fresh or stale) returns null without fetching;
otherwise the oracle is consulted and a success is stored; a failed
fetch is caught and returns null. -/
def fetchPokemonDataByNameOrId {α : Type} (oracle : String → Option α)
    (cache : CacheMap α) (identifier : String) (isPreload : Bool)
    (now : ℕ) : FetchOutcome α :=
  let cacheKey := jsToLower identifier
  match cache cacheKey with
  | some e =>
    if now - e.timestamp < CACHE_EXPIRY_MS then ⟨some e.data, cache, false⟩
    else if isPreload then ⟨none, cache, false⟩
    else
      match oracle cacheKey with
      | some d => ⟨some d, cachePut cache cacheKey d now, true⟩
      | none => ⟨none, cache, true⟩
  | none =>
    match oracle cacheKey with
    | some d => ⟨some d, cachePut cache cacheKey d now, true⟩
    | none => ⟨none, cache, true⟩

/-! ## Navigation/preload sequencer
(src/app/pokedex/[pokemonName]/page.tsx,
`loadCurrentPokemonAndPreloadNeighbors` and `fetchPokemonNavInfoById`) -/

/-- The fields of a fetched creature record that the sequencer reads. -/
structure PokemonRecord where
  id : ℕ
  name : String
deriving DecidableEq

/-- `MAX_POKEMON_ID_FOR_NAV = 1025`. -/
def MAX_POKEMON_ID_FOR_NAV : ℕ := 1025

/-- `NavLinkInfo` derived from a neighbor's record. -/
structure NavLinkInfo where
  id : ℕ
  name : String
  displayName : String
deriving DecidableEq

/-- `fetchPokemonNavInfoById`: out-of-range ids short-circuit to null,
any fetch failure or non-ok response is caught and yields null,
otherwise the nav info. -/
def fetchPokemonNavInfoById (navOracle : ℕ → Option NavLinkInfo)
    (id : ℕ) : Option NavLinkInfo :=
  if id = 0 ∨ MAX_POKEMON_ID_FOR_NAV < id then none else navOracle id

/-- What `loadCurrentPokemonAndPreloadNeighbors` produces that the
claims observe: the page error, the cache keys for which a preload
fetch was issued, and the final cache. -/
structure LoadOutcome where
  error : Option String
  preloads : List String
  cacheAfter : CacheMap PokemonRecord

/-- One neighbor step of the sequencer: resolve the nav info for the
neighbor id, and if it resolves and its key has no cache entry at all
(`pokemonDataCache.has`), issue a preload fetch whose result is
discarded. -/
def preloadNeighbor (oracle : String → Option PokemonRecord)
    (navOracle : ℕ → Option NavLinkInfo) (cache : CacheMap PokemonRecord)
    (now : ℕ) (nid : ℕ) : List String × CacheMap PokemonRecord :=
  match fetchPokemonNavInfoById navOracle nid with
  | some info =>
    if (cache (jsToLower info.name)).isSome then ([], cache)
    else
      let f := fetchPokemonDataByNameOrId oracle cache (jsToLower info.name)
        true now
      ([jsToLower info.name], f.cache)
  | none => ([], cache)

/-- The two neighbor attempts of the sequencer, in source order: the
previous id under the `id > 1` guard, then the next id under the
`id < MAX_POKEMON_ID_FOR_NAV` guard, threading the cache. -/
def loadNeighbors (oracle : String → Option PokemonRecord)
    (navOracle : ℕ → Option NavLinkInfo) (cache : CacheMap PokemonRecord)
    (now : ℕ) (d : PokemonRecord) :
    List String × CacheMap PokemonRecord :=
  let p1 := if 1 < d.id then
      preloadNeighbor oracle navOracle cache now (d.id - 1)
    else ([], cache)
  let p2 := if d.id < MAX_POKEMON_ID_FOR_NAV then
      preloadNeighbor oracle navOracle p1.2 now (d.id + 1)
    else ([], p1.2)
  (p1.1 ++ p2.1, p2.2)

/-- The sequencer: the current creature's detail record is fetched
first (non-preload); on failure the page error is set and no preload
happens; on success the two neighbors are attempted under their range
and cache-presence guards. (The species/evolution/effectiveness work of
`fetchPageSpecificDetails` is modelled separately and does not touch
the preload path.) -/
def loadCurrentPokemonAndPreloadNeighbors
    (oracle : String → Option PokemonRecord)
    (navOracle : ℕ → Option NavLinkInfo) (cache : CacheMap PokemonRecord)
    (identifier : String) (now : ℕ) : LoadOutcome :=
  match (fetchPokemonDataByNameOrId oracle cache (jsToLower identifier)
      false now).res with
  | none =>
    { error := some ("Pokémon \"" ++ identifier ++
        "\" not found or failed to load.")
      preloads := []
      cacheAfter := (fetchPokemonDataByNameOrId oracle cache
        (jsToLower identifier) false now).cache }
  | some d =>
    { error := none
      preloads := (loadNeighbors oracle navOracle
        (fetchPokemonDataByNameOrId oracle cache (jsToLower identifier)
          false now).cache now d).1
      cacheAfter := (loadNeighbors oracle navOracle
        (fetchPokemonDataByNameOrId oracle cache (jsToLower identifier)
          false now).cache now d).2 }

/-! ## Random-creature retry loop (src/app/guesser/page.tsx,
`startNewGame`) -/

/-- The possible outcomes of one attempt of the `while` loop. Every
constructor except `success` increments the attempt counter and
continues: a 404 response and a missing sprite continue explicitly, any
other non-ok status or rejected fetch (including a failed effectiveness
fetch for the chosen creature) is thrown and caught. `success` means
the creature and its effectiveness map were fully loaded. -/
inductive AttemptOutcome where
  | success : PokemonRecord → AttemptOutcome
  | notFound : AttemptOutcome
  | httpError : ℕ → AttemptOutcome
  | noSprite : AttemptOutcome
  | fetchFailure : AttemptOutcome
deriving DecidableEq

/-- What `startNewGame` leaves behind: the loaded creature, or the
terminal error message. -/
structure GameStart where
  pokemon : Option PokemonRecord
  error : Option String
deriving DecidableEq

/-- The terminal error text of `startNewGame`. -/
def startNewGameErrorText : String :=
  "Could not load a Pokémon after several attempts. Please try again later."

/-- The `while (attempts < 5)` loop, indexed by the remaining attempt
budget and the current attempt number. -/
def startNewGameLoop (outcomes : ℕ → AttemptOutcome) :
    ℕ → ℕ → GameStart
  | 0, _ => ⟨none, some startNewGameErrorText⟩
  | r + 1, i =>
    match outcomes i with
    | .success p => ⟨some p, none⟩
    | _ => startNewGameLoop outcomes r (i + 1)

/-- The attempt bound: the loop guard is `attempts < 5`. -/
def MAX_GAME_ATTEMPTS : ℕ := 5

/-- `startNewGame` over the sequence of attempt outcomes. -/
def startNewGame (outcomes : ℕ → AttemptOutcome) : GameStart :=
  startNewGameLoop outcomes MAX_GAME_ATTEMPTS 0

/-! ## Association-list and registry lemmas -/

theorem lookup_cons_self {β : Type} (k : String) (b : β)
    (es : List (String × β)) : ((k, b) :: es).lookup k = some b := by
  simp [List.lookup]

theorem lookup_cons_ne {β : Type} (a k : String) (b : β)
    (es : List (String × β)) (h : a ≠ k) :
    ((k, b) :: es).lookup a = es.lookup a := by
  have hb : (a == k) = false := by simp [h]
  simp [List.lookup, hb]

theorem lookup_map_key {β : Type} (key : TypeData → String)
    (g : TypeData → β) (l : List TypeData) (t : TypeData) (ht : t ∈ l)
    (hnd : (l.map key).Nodup) :
    (l.map (fun u => (key u, g u))).lookup (key t) = some (g t) := by
  induction l with
  | nil => cases ht
  | cons u l ih =>
    simp only [List.map_cons] at hnd ⊢
    rcases List.mem_cons.mp ht with rfl | htl
    · exact lookup_cons_self _ _ _
    · have hne : key t ≠ key u := by
        intro h
        exact (List.nodup_cons.mp hnd).1 (h ▸ List.mem_map_of_mem key htl)
      rw [lookup_cons_ne _ _ _ _ hne]
      exact ih htl (List.nodup_cons.mp hnd).2

theorem pokemonNames_nodup :
    (POKEMON_TYPES.map (fun t => t.name)).Nodup := by decide

theorem pokemonLowerNames_nodup :
    (POKEMON_TYPES.map (fun t => jsToLower t.name)).Nodup := by decide

theorem recordMul_cons (k0 : String) (v0 : ℚ) (m : List (String × ℚ))
    (key : String) (c : ℚ) :
    recordMul ((k0, v0) :: m) key c =
      (k0, if k0 = key then v0 * c else v0) :: recordMul m key c := by
  by_cases h : k0 = key <;> simp [recordMul, h]

theorem recordMul_lookup_self (m : List (String × ℚ)) (key : String)
    (c : ℚ) :
    (recordMul m key c).lookup key = (m.lookup key).map (· * c) := by
  induction m with
  | nil => simp [recordMul]
  | cons p m ih =>
    obtain ⟨k0, v0⟩ := p
    rw [recordMul_cons]
    by_cases h : k0 = key
    · subst h
      rw [lookup_cons_self, lookup_cons_self, if_pos rfl]
      simp
    · have h2 : key ≠ k0 := fun hh => h hh.symm
      rw [lookup_cons_ne _ _ _ _ h2, lookup_cons_ne _ _ _ _ h2, ih]

theorem recordMul_lookup_ne (m : List (String × ℚ)) (key : String)
    (c : ℚ) (a : String) (h : a ≠ key) :
    (recordMul m key c).lookup a = m.lookup a := by
  induction m with
  | nil => simp [recordMul]
  | cons p m ih =>
    obtain ⟨k0, v0⟩ := p
    rw [recordMul_cons]
    by_cases ha : a = k0
    · subst ha
      rw [lookup_cons_self, lookup_cons_self, if_neg h]
    · rw [lookup_cons_ne _ _ _ _ ha, lookup_cons_ne _ _ _ _ ha, ih]

theorem recordMul_lookup (m : List (String × ℚ)) (key : String) (c : ℚ)
    (a : String) :
    (recordMul m key c).lookup a =
      if a = key then (m.lookup a).map (· * c) else m.lookup a := by
  by_cases h : a = key
  · subst h
    rw [if_pos rfl, recordMul_lookup_self]
  · rw [if_neg h, recordMul_lookup_ne _ _ _ _ h]

theorem foldl_recordMul_lookup (c : ℚ) (l : List String)
    (m : List (String × ℚ)) (a : String) :
    (l.foldl (fun acc t => recordMul acc (jsToLower t) c) m).lookup a =
      (m.lookup a).map (· * c ^ ((l.map jsToLower).count a)) := by
  induction l generalizing m with
  | nil => cases hm : m.lookup a <;> simp [hm]
  | cons t l ih =>
    rw [List.foldl_cons, ih, recordMul_lookup]
    by_cases h : a = jsToLower t
    · rw [if_pos h]
      have hc : ((t :: l).map jsToLower).count a =
          ((l.map jsToLower).count a) + 1 := by
        simp [List.map_cons, List.count_cons, h]
      rw [hc]
      cases hm : m.lookup a
      · simp [hm]
      · simp [hm, pow_succ]; ring
    · rw [if_neg h]
      have hc : ((t :: l).map jsToLower).count a =
          (l.map jsToLower).count a := by
        simp [List.map_cons, List.count_cons, h]
      rw [hc]

/-- Well-formedness of a fetched relation triple: within each list the
lowercased names are distinct, and the three lists are pairwise
disjoint. The remote API delivers the three lists as sets of types, so
every real relation record satisfies this. -/
def WellFormedRel (rel : DamageRelations) : Prop :=
  (rel.double_damage_from.map jsToLower).Nodup ∧
  (rel.half_damage_from.map jsToLower).Nodup ∧
  (rel.no_damage_from.map jsToLower).Nodup ∧
  (∀ a ∈ rel.double_damage_from.map jsToLower,
    a ∉ rel.half_damage_from.map jsToLower) ∧
  (∀ a ∈ rel.double_damage_from.map jsToLower,
    a ∉ rel.no_damage_from.map jsToLower) ∧
  (∀ a ∈ rel.half_damage_from.map jsToLower,
    a ∉ rel.no_damage_from.map jsToLower)

/-- The per-relation factor as the claim states it for the detail-page
calculator: 2 / 0.5 / 0 / 1 by membership of the lowercased attacking
name among the lowercased relation names. -/
def relFactor (rel : DamageRelations) (a : String) : ℚ :=
  if a ∈ rel.double_damage_from.map jsToLower then 2
  else if a ∈ rel.half_damage_from.map jsToLower then 1/2
  else if a ∈ rel.no_damage_from.map jsToLower then 0
  else 1

theorem applyTypeDetail_lookup (m : List (String × ℚ))
    (rel : DamageRelations) (a : String) (h : WellFormedRel rel) :
    (applyTypeDetail m rel).lookup a =
      (m.lookup a).map (· * relFactor rel a) := by
  obtain ⟨nd1, nd2, nd3, d12, d13, d23⟩ := h
  unfold applyTypeDetail
  rw [foldl_recordMul_lookup, foldl_recordMul_lookup,
    foldl_recordMul_lookup]
  cases hm : m.lookup a with
  | none => simp
  | some v =>
    simp only [Option.map_some']
    congr 1
    unfold relFactor
    by_cases h1 : a ∈ rel.double_damage_from.map jsToLower
    · have c1 := List.count_eq_one_of_mem nd1 h1
      have c2 := List.count_eq_zero_of_not_mem (d12 a h1)
      have c3 := List.count_eq_zero_of_not_mem (d13 a h1)
      rw [c1, c2, c3, if_pos h1]; ring
    · rw [List.count_eq_zero_of_not_mem h1, if_neg h1]
      by_cases h2 : a ∈ rel.half_damage_from.map jsToLower
      · have c2 := List.count_eq_one_of_mem nd2 h2
        have c3 := List.count_eq_zero_of_not_mem (d23 a h2)
        rw [c2, c3, if_pos h2]; ring
      · rw [List.count_eq_zero_of_not_mem h2, if_neg h2]
        by_cases h3 : a ∈ rel.no_damage_from.map jsToLower
        · rw [List.count_eq_one_of_mem nd3 h3, if_pos h3]; ring
        · rw [List.count_eq_zero_of_not_mem h3, if_neg h3]; ring

theorem foldl_applyTypeDetail_lookup (rels : List DamageRelations)
    (m : List (String × ℚ)) (a : String)
    (h : ∀ r ∈ rels, WellFormedRel r) :
    (rels.foldl applyTypeDetail m).lookup a =
      (m.lookup a).map (· * (rels.map (fun r => relFactor r a)).prod) := by
  induction rels generalizing m with
  | nil => cases hm : m.lookup a <;> simp [hm]
  | cons r rels ih =>
    rw [List.foldl_cons,
      ih _ (fun r' hr' => h r' (List.mem_cons_of_mem _ hr')),
      applyTypeDetail_lookup _ _ _ (h r (List.mem_cons_self _ _))]
    cases hm : m.lookup a <;> simp [hm, List.prod_cons, mul_assoc]

theorem initialEffectivenessMap_lookup (t : TypeData)
    (ht : t ∈ POKEMON_TYPES) :
    initialEffectivenessMap.lookup (jsToLower t.name) = some 1 :=
  lookup_map_key (fun u => jsToLower u.name) (fun _ => (1 : ℚ))
    POKEMON_TYPES t ht pokemonLowerNames_nodup

theorem baseEffectivenessMap_lookup (rels : List DamageRelations)
    (t : TypeData) (ht : t ∈ POKEMON_TYPES)
    (h : ∀ r ∈ rels, WellFormedRel r) :
    (baseEffectivenessMap rels).lookup (jsToLower t.name) =
      some ((rels.map (fun r => relFactor r (jsToLower t.name))).prod) := by
  unfold baseEffectivenessMap
  rw [foldl_applyTypeDetail_lookup _ _ _ h,
    initialEffectivenessMap_lookup t ht]
  simp

theorem foldl_mul_eq_prod (f : DamageRelations → ℚ)
    (rels : List DamageRelations) (a : ℚ) :
    rels.foldl (fun m rel => m * f rel) a = a * (rels.map f).prod := by
  induction rels generalizing a with
  | nil => simp
  | cons r rels ih =>
    rw [List.foldl_cons, ih, List.map_cons, List.prod_cons, mul_assoc]

theorem calculatedEffectivenessMap_lookup (rels : List DamageRelations)
    (t : TypeData) (ht : t ∈ POKEMON_TYPES) :
    (calculatedEffectivenessMap rels).lookup t.name =
      some ((rels.map (fun r => typeFactor r (jsToLower t.name))).prod) := by
  have h := lookup_map_key (fun u => u.name)
    (fun u => rels.foldl
      (fun m rel => m * typeFactor rel (jsToLower u.name)) 1)
    POKEMON_TYPES t ht pokemonNames_nodup
  unfold calculatedEffectivenessMap
  rw [h]
  show some (rels.foldl
      (fun m rel => m * typeFactor rel (jsToLower t.name)) 1) = _
  rw [foldl_mul_eq_prod, one_mul]

/-! ## Multiplier domain -/

/-- The multiplier values reachable from one or two defending types:
{0, 0.25, 0.5, 1, 2, 4}. -/
def MultiplierDomain (q : ℚ) : Prop :=
  q = 0 ∨ q = 1/4 ∨ q = 1/2 ∨ q = 1 ∨ q = 2 ∨ q = 4

theorem typeFactor_cases (rel : DamageRelations) (a : String) :
    typeFactor rel a = 0 ∨ typeFactor rel a = 1/2 ∨
      typeFactor rel a = 1 ∨ typeFactor rel a = 2 := by
  unfold typeFactor
  by_cases h1 : a ∈ rel.double_damage_from
  · simp [h1]
  · by_cases h2 : a ∈ rel.half_damage_from
    · simp [h1, h2]
    · by_cases h3 : a ∈ rel.no_damage_from
      · simp [h1, h2, h3]
      · simp [h1, h2, h3]

theorem relFactor_cases (rel : DamageRelations) (a : String) :
    relFactor rel a = 0 ∨ relFactor rel a = 1/2 ∨
      relFactor rel a = 1 ∨ relFactor rel a = 2 := by
  unfold relFactor
  by_cases h1 : a ∈ rel.double_damage_from.map jsToLower
  · simp [h1]
  · by_cases h2 : a ∈ rel.half_damage_from.map jsToLower
    · simp [h1, h2]
    · by_cases h3 : a ∈ rel.no_damage_from.map jsToLower
      · simp [h1, h2, h3]
      · simp [h1, h2, h3]

theorem prod_factors_domain (xs : List ℚ)
    (hx : ∀ x ∈ xs, x = 0 ∨ x = 1/2 ∨ x = 1 ∨ x = 2)
    (hl : xs.length = 1 ∨ xs.length = 2) : MultiplierDomain xs.prod := by
  rcases hl with h1 | h2
  · obtain ⟨x, rfl⟩ := List.length_eq_one.mp h1
    rw [List.prod_singleton]
    rcases hx x (by simp) with rfl | rfl | rfl | rfl
    all_goals norm_num [MultiplierDomain]
  · obtain ⟨x, y, rfl⟩ := List.length_eq_two.mp h2
    rw [List.prod_cons, List.prod_singleton]
    rcases hx x (by simp) with rfl | rfl | rfl | rfl
    all_goals rcases hx y (by simp) with rfl | rfl | rfl | rfl
    all_goals norm_num [MultiplierDomain]

/-- C1: for a creature with one or two defending types, both
calculators give every registry attacking type the product of the
per-relation factors of its defending types (for the detail page under
well-formedness of the fetched relation sets), and that product lies in
{0, 0.25, 0.5, 1, 2, 4}. -/
theorem effectiveness_multiplier_product_and_domain
    (rels : List DamageRelations)
    (hlen : rels.length = 1 ∨ rels.length = 2) :
    (∀ t ∈ POKEMON_TYPES,
      (calculatedEffectivenessMap rels).lookup t.name =
        some ((rels.map (fun r => typeFactor r (jsToLower t.name))).prod) ∧
      MultiplierDomain
        ((rels.map (fun r => typeFactor r (jsToLower t.name))).prod)) ∧
    ((∀ r ∈ rels, WellFormedRel r) →
      ∀ t ∈ POKEMON_TYPES,
        (baseEffectivenessMap rels).lookup (jsToLower t.name) =
          some ((rels.map (fun r => relFactor r (jsToLower t.name))).prod) ∧
        MultiplierDomain
          ((rels.map (fun r => relFactor r (jsToLower t.name))).prod)) := by
  constructor
  · intro t ht
    refine ⟨calculatedEffectivenessMap_lookup rels t ht, ?_⟩
    apply prod_factors_domain
    · intro x hx
      obtain ⟨r, hr, rfl⟩ := List.mem_map.mp hx
      exact typeFactor_cases r _
    · simpa using hlen
  · intro hwf t ht
    refine ⟨baseEffectivenessMap_lookup rels t ht hwf, ?_⟩
    apply prod_factors_domain
    · intro x hx
      obtain ⟨r, hr, rfl⟩ := List.mem_map.mp hx
      exact relFactor_cases r _
    · simpa using hlen

/-- The damage relations of the flying type, as the remote API reports
them (its `no_damage_from` holds ground). -/
def flyingRel : DamageRelations :=
  ⟨["rock", "electric", "ice"], ["fighting", "bug", "grass"], ["ground"]⟩

/-- Witness for C1 at the single defending type flying. -/
theorem effectiveness_multiplier_product_and_domain_witness :
    (∀ t ∈ POKEMON_TYPES,
      (calculatedEffectivenessMap [flyingRel]).lookup t.name =
        some (([flyingRel].map
          (fun r => typeFactor r (jsToLower t.name))).prod) ∧
      MultiplierDomain (([flyingRel].map
        (fun r => typeFactor r (jsToLower t.name))).prod)) ∧
    ((∀ r ∈ [flyingRel], WellFormedRel r) →
      ∀ t ∈ POKEMON_TYPES,
        (baseEffectivenessMap [flyingRel]).lookup (jsToLower t.name) =
          some (([flyingRel].map
            (fun r => relFactor r (jsToLower t.name))).prod) ∧
        MultiplierDomain (([flyingRel].map
          (fun r => relFactor r (jsToLower t.name))).prod)) :=
  effectiveness_multiplier_product_and_domain [flyingRel] (Or.inl rfl)

/-! ## Levitate override lemmas -/

theorem lookup_append_of_all_ne {β : Type} (m l : List (String × β))
    (key : String) (h : ∀ p ∈ m, p.1 ≠ key) :
    (m ++ l).lookup key = l.lookup key := by
  induction m with
  | nil => simp
  | cons p m ih =>
    obtain ⟨k0, v0⟩ := p
    have hne : key ≠ k0 :=
      fun hh => h (k0, v0) (List.mem_cons_self _ _) hh.symm
    rw [List.cons_append, lookup_cons_ne _ _ _ _ hne]
    exact ih (fun q hq => h q (List.mem_cons_of_mem _ hq))

theorem lookup_map_set (m : List (String × ℚ)) (key : String) (v : ℚ) :
    (m.map (fun p => if p.1 = key then (p.1, v) else p)).lookup key =
      if m.any (fun p => p.1 = key) then some v else m.lookup key := by
  induction m with
  | nil => simp
  | cons p m ih =>
    obtain ⟨k0, v0⟩ := p
    have hcons : ((k0, v0) :: m).map
        (fun p => if p.1 = key then (p.1, v) else p) =
        (k0, if k0 = key then v else v0) ::
          m.map (fun p => if p.1 = key then (p.1, v) else p) := by
      by_cases h : k0 = key <;> simp [h]
    rw [hcons]
    by_cases h : k0 = key
    · subst h
      rw [lookup_cons_self, if_pos rfl, List.any_cons]
      simp
    · have hne : key ≠ k0 := fun hh => h hh.symm
      rw [lookup_cons_ne _ _ _ _ hne, ih]
      have hany : (((k0, v0) :: m).any fun p => decide (p.1 = key)) =
          (m.any fun p => decide (p.1 = key)) := by
        simp [h]
      rw [hany, lookup_cons_ne _ _ _ _ hne]

theorem recordSet_lookup_self (m : List (String × ℚ)) (key : String)
    (v : ℚ) : (recordSet m key v).lookup key = some v := by
  unfold recordSet
  by_cases h : m.any (fun p => p.1 = key)
  · rw [if_pos h, lookup_map_set, if_pos h]
  · rw [if_neg h, lookup_append_of_all_ne]
    · exact lookup_cons_self _ _ _
    · intro p hp hpk
      exact h (List.any_eq_true.mpr ⟨p, hp, by simp [hpk]⟩)

/-- The registry entry for the ground type. -/
def groundTypeEntry : TypeData :=
  ⟨"type-ground", "Ground", "#E2BF65", some "#000000"⟩

theorem effectivenessTable_lookup_ground (m : List (String × ℚ)) :
    (effectivenessTable m).lookup "Ground" =
      some ((m.lookup "ground").getD 1) := by
  have h : (effectivenessTable m).lookup "Ground" =
      some ((m.lookup (jsToLower groundTypeEntry.name)).getD 1) :=
    lookup_map_key (fun u => u.name)
      (fun u => (m.lookup (jsToLower u.name)).getD 1)
      POKEMON_TYPES groundTypeEntry (by decide) pokemonNames_nodup
  rwa [(by decide : jsToLower groundTypeEntry.name = "ground")] at h

/-- C2 counterexample: a creature whose single defending type is flying
(base ground multiplier 0 by the flying immunity) and whose ability
list contains levitate gets final ground multiplier 0 but NO override
annotation, contradicting the claim that the annotation is present. -/
theorem baseEffectivenessMap_flying_ground :
    (baseEffectivenessMap [flyingRel]).lookup "ground" = some 0 := by
  have hwf : ∀ r ∈ [flyingRel], WellFormedRel r := by
    intro r hr
    rw [List.mem_singleton] at hr
    subst hr
    refine ⟨by decide, by decide, by decide, by decide, by decide,
      by decide⟩
  have h := baseEffectivenessMap_lookup [flyingRel] groundTypeEntry
    (by decide) hwf
  rw [(by decide : jsToLower groundTypeEntry.name = "ground")] at h
  rw [h]
  have hrf : relFactor flyingRel "ground" = 0 := by
    unfold relFactor
    rw [if_neg (by decide), if_neg (by decide), if_pos (by decide)]
  simp [hrf]

theorem levitate_flying_annotation_absent :
    (pageEffectiveness [flyingRel] ["levitate"]).1.lookup "Ground" =
      some 0 ∧
    (pageEffectiveness [flyingRel] ["levitate"]).2 = none := by
  have hg := baseEffectivenessMap_flying_ground
  have hov : applyLevitateOverride (baseEffectivenessMap [flyingRel])
      ["levitate"] = (baseEffectivenessMap [flyingRel], none) := by
    unfold applyLevitateOverride
    rw [if_neg (fun hc => hc.2 hg)]
  constructor
  · show (effectivenessTable (applyLevitateOverride
      (baseEffectivenessMap [flyingRel]) ["levitate"]).1).lookup
        "Ground" = some 0
    rw [hov, effectivenessTable_lookup_ground, hg]
    rfl
  · show (applyLevitateOverride (baseEffectivenessMap [flyingRel])
      ["levitate"]).2 = none
    rw [hov]

/-- C2 amended: with levitate present the final ground multiplier is 0,
but the override annotation is produced exactly when the pre-override
ground multiplier is nonzero; without levitate the table and annotation
are untouched. -/
theorem levitate_override (rels : List DamageRelations)
    (abilities : List String) :
    (hasLevitate abilities = true →
      (pageEffectiveness rels abilities).1.lookup "Ground" = some 0 ∧
      ((pageEffectiveness rels abilities).2.isSome ↔
        (baseEffectivenessMap rels).lookup "ground" ≠ some 0)) ∧
    (hasLevitate abilities = false →
      pageEffectiveness rels abilities =
        (effectivenessTable (baseEffectivenessMap rels), none)) := by
  constructor
  · intro hlev
    by_cases hg : (baseEffectivenessMap rels).lookup "ground" = some 0
    · have hov : applyLevitateOverride (baseEffectivenessMap rels)
          abilities = (baseEffectivenessMap rels, none) := by
        unfold applyLevitateOverride
        rw [if_neg (fun hc => hc.2 hg)]
      constructor
      · show (effectivenessTable (applyLevitateOverride
          (baseEffectivenessMap rels) abilities).1).lookup "Ground" =
            some 0
        rw [hov, effectivenessTable_lookup_ground, hg]
        rfl
      · show ((applyLevitateOverride (baseEffectivenessMap rels)
          abilities).2.isSome ↔ _)
        rw [hov]
        simp [hg]
    · have hov : applyLevitateOverride (baseEffectivenessMap rels)
          abilities = (recordSet (baseEffectivenessMap rels) "ground" 0,
            some "Immune to Ground due to Levitate.") := by
        unfold applyLevitateOverride
        rw [if_pos ⟨hlev, hg⟩]
      constructor
      · show (effectivenessTable (applyLevitateOverride
          (baseEffectivenessMap rels) abilities).1).lookup "Ground" =
            some 0
        rw [hov, effectivenessTable_lookup_ground, recordSet_lookup_self]
        rfl
      · show ((applyLevitateOverride (baseEffectivenessMap rels)
          abilities).2.isSome ↔ _)
        rw [hov]
        simp [hg]
  · intro hlev
    have hfalse : ¬(hasLevitate abilities = true ∧
        (baseEffectivenessMap rels).lookup "ground" ≠ some 0) := by
      intro hc
      rw [hlev] at hc
      exact Bool.false_ne_true hc.1
    have hov : applyLevitateOverride (baseEffectivenessMap rels)
        abilities = (baseEffectivenessMap rels, none) := by
      unfold applyLevitateOverride
      rw [if_neg hfalse]
    show (effectivenessTable (applyLevitateOverride
        (baseEffectivenessMap rels) abilities).1,
      (applyLevitateOverride (baseEffectivenessMap rels)
        abilities).2) = _
    rw [hov]

/-- Witness for the amended C2 at flying + levitate. -/
theorem levitate_override_witness :
    (pageEffectiveness [flyingRel] ["levitate"]).1.lookup "Ground" =
      some 0 ∧
    ((pageEffectiveness [flyingRel] ["levitate"]).2.isSome ↔
      (baseEffectivenessMap [flyingRel]).lookup "ground" ≠ some 0) :=
  (levitate_override [flyingRel] ["levitate"]).1 (by decide)

/-! ## C5: relation-fetch failure propagation -/

theorem fetchAll_eq_none_iff (oracle : String → Option DamageRelations)
    (urls : List String) :
    fetchAll oracle urls = none ↔ ∃ u ∈ urls, oracle u = none := by
  induction urls with
  | nil => simp [fetchAll]
  | cons u us ih =>
    cases h : oracle u with
    | none =>
      constructor
      · intro _
        exact ⟨u, List.mem_cons_self _ _, h⟩
      · intro _
        simp [fetchAll, h]
    | some r =>
      simp only [fetchAll, h, Option.map_eq_none']
      rw [ih]
      constructor
      · rintro ⟨v, hv, hvn⟩
        exact ⟨v, List.mem_cons_of_mem _ hv, hvn⟩
      · rintro ⟨v, hv, hvn⟩
        rcases List.mem_cons.mp hv with rfl | hv2
        · rw [h] at hvn
          cases hvn
        · exact ⟨v, hv2, hvn⟩

/-- C5: if any defending type's relation fetch fails, the detail page's
effectiveness computation lands in its catch block (error surfaced, no
table) and the guesser's computation rejects (no map); if all fetches
succeed, both produce their tables from the fetched relations. -/
theorem relation_fetch_failure_surfaced
    (oracle : String → Option DamageRelations) (typeUrls : List String)
    (abilities : List String) :
    ((∃ u ∈ typeUrls, oracle u = none) →
      fetchPageSpecificDetails oracle typeUrls abilities =
        Except.error "Failed to load some details" ∧
      calculateEffectiveness oracle typeUrls = none) ∧
    ((∀ u ∈ typeUrls, (oracle u).isSome) →
      ∃ rels, fetchAll oracle typeUrls = some rels ∧
        fetchPageSpecificDetails oracle typeUrls abilities =
          Except.ok (pageEffectiveness rels abilities) ∧
        calculateEffectiveness oracle typeUrls =
          some (calculatedEffectivenessMap rels)) := by
  constructor
  · intro hfail
    have hnone : fetchAll oracle typeUrls = none :=
      (fetchAll_eq_none_iff oracle typeUrls).mpr hfail
    constructor
    · unfold fetchPageSpecificDetails
      rw [hnone]
    · unfold calculateEffectiveness
      rw [hnone]
      rfl
  · intro hall
    have hne : fetchAll oracle typeUrls ≠ none := by
      intro hn
      obtain ⟨u, hu, hun⟩ := (fetchAll_eq_none_iff oracle typeUrls).mp hn
      have hsome := hall u hu
      rw [hun] at hsome
      cases hsome
    obtain ⟨rels, hrels⟩ := Option.ne_none_iff_exists'.mp hne
    refine ⟨rels, hrels, ?_, ?_⟩
    · unfold fetchPageSpecificDetails
      rw [hrels]
    · unfold calculateEffectiveness
      rw [hrels]
      rfl

/-- A fetch oracle with the network down: every request rejects. -/
def failingOracle : String → Option DamageRelations := fun _ => none

/-- Witness for C5: with one defending type and its fetch failing, the
page computation errors and the guesser computation rejects. -/
theorem relation_fetch_failure_surfaced_witness :
    fetchPageSpecificDetails failingOracle
      ["https://pokeapi.co/api/v2/type/flying"] [] =
      Except.error "Failed to load some details" ∧
    calculateEffectiveness failingOracle
      ["https://pokeapi.co/api/v2/type/flying"] = none :=
  (relation_fetch_failure_surfaced failingOracle
    ["https://pokeapi.co/api/v2/type/flying"] []).1
    ⟨"https://pokeapi.co/api/v2/type/flying", by simp, rfl⟩

/-! ## Quiz scoring lemmas -/

/-- An arbitrary 18-entry effectiveness table: one value per registry
type name. Every map the quiz stores has this shape. -/
def mkEffTable (f : String → ℚ) : List (String × ℚ) :=
  POKEMON_TYPES.map (fun t => (t.name, f t.name))

theorem mkEffTable_lookup (f : String → ℚ) (t : TypeData)
    (ht : t ∈ POKEMON_TYPES) :
    (mkEffTable f).lookup t.name = some (f t.name) :=
  lookup_map_key (fun u => u.name) (fun u => f u.name)
    POKEMON_TYPES t ht pokemonNames_nodup

theorem effLookup_mkEffTable (f : String → ℚ) (t : TypeData)
    (ht : t ∈ POKEMON_TYPES) :
    effLookup (mkEffTable f) t.name =
      if f t.name = 0 then 1 else f t.name := by
  unfold effLookup
  rw [mkEffTable_lookup f t ht]

theorem se_mkEffTable (f : String → ℚ) (t : TypeData)
    (ht : t ∈ POKEMON_TYPES) :
    2 ≤ effLookup (mkEffTable f) t.name ↔ 2 ≤ f t.name := by
  rw [effLookup_mkEffTable f t ht]
  by_cases h0 : f t.name = 0
  · rw [if_pos h0, h0]
    norm_num
  · rw [if_neg h0]

theorem hasAnySuperEffective_mkEffTable (f : String → ℚ) :
    hasAnySuperEffective (mkEffTable f) = true ↔
      ∃ t ∈ POKEMON_TYPES, 2 ≤ f t.name := by
  unfold hasAnySuperEffective mkEffTable
  rw [List.any_eq_true]
  constructor
  · rintro ⟨p, hp, hp2⟩
    obtain ⟨t, ht, rfl⟩ := List.mem_map.mp hp
    exact ⟨t, ht, of_decide_eq_true hp2⟩
  · rintro ⟨t, ht, h2⟩
    exact ⟨(t.name, f t.name), List.mem_map_of_mem _ ht,
      decide_eq_true h2⟩

theorem classifyType_iff (eff : List (String × ℚ)) (sel : List String)
    (name : String) :
    (classifyType eff sel name = TypeCheckResult.CORRECT ↔
      name ∈ sel ∧ 2 ≤ effLookup eff name) ∧
    (classifyType eff sel name = TypeCheckResult.INCORRECT ↔
      name ∈ sel ∧ effLookup eff name < 2) ∧
    (classifyType eff sel name = TypeCheckResult.MISSED ↔
      name ∉ sel ∧ 2 ≤ effLookup eff name) ∧
    (classifyType eff sel name = TypeCheckResult.NONE ↔
      name ∉ sel ∧ effLookup eff name < 2) := by
  unfold classifyType isSuperEffective
  by_cases hm : name ∈ sel
  · by_cases hse : 2 ≤ effLookup eff name
    · simp [hm, hse, ← not_le]
    · simp [hm, hse, ← not_le]
  · by_cases hse : 2 ≤ effLookup eff name
    · simp [hm, hse, ← not_le]
    · simp [hm, hse, ← not_le]

theorem checkFlags_go (eff : List (String × ℚ)) (sel : List String)
    (l : List TypeData) :
    ∀ a b : Bool,
      l.foldl (fun acc t =>
        match classifyType eff sel t.name with
        | TypeCheckResult.INCORRECT => (false, acc.2)
        | TypeCheckResult.MISSED => (false, true)
        | _ => acc) (a, b) =
      (a && l.all (fun t =>
        !(decide (classifyType eff sel t.name =
          TypeCheckResult.INCORRECT)) &&
        !(decide (classifyType eff sel t.name =
          TypeCheckResult.MISSED))),
       b || l.any (fun t =>
        decide (classifyType eff sel t.name =
          TypeCheckResult.MISSED))) := by
  induction l with
  | nil =>
    intro a b
    simp
  | cons t l ih =>
    intro a b
    rw [List.foldl_cons, List.all_cons, List.any_cons]
    cases hc : classifyType eff sel t.name
    · simp only [hc]
      rw [ih]
      simp [hc]
    · simp only [hc]
      rw [ih]
      simp [hc]
    · simp only [hc]
      rw [ih]
      simp [hc]
    · simp only [hc]
      rw [ih]
      simp [hc]

theorem checkFlags_spec (eff : List (String × ℚ)) (sel : List String) :
    checkFlags eff sel =
      (POKEMON_TYPES.all (fun t =>
        !(decide (classifyType eff sel t.name =
          TypeCheckResult.INCORRECT)) &&
        !(decide (classifyType eff sel t.name =
          TypeCheckResult.MISSED))),
       POKEMON_TYPES.any (fun t =>
        decide (classifyType eff sel t.name =
          TypeCheckResult.MISSED))) := by
  unfold checkFlags
  rw [checkFlags_go]
  simp

theorem gameWon_eq_true_iff (eff : List (String × ℚ))
    (sel : List String) :
    gameWon eff sel = true ↔
      ((∀ t ∈ POKEMON_TYPES,
        classifyType eff sel t.name ≠ TypeCheckResult.INCORRECT) ∧
       (∀ t ∈ POKEMON_TYPES,
        classifyType eff sel t.name ≠ TypeCheckResult.MISSED) ∧
       (hasAnySuperEffective eff = true → sel ≠ [])) := by
  unfold gameWon
  rw [checkFlags_spec]
  by_cases h1 : ∀ t ∈ POKEMON_TYPES,
      classifyType eff sel t.name ≠ TypeCheckResult.INCORRECT ∧
      classifyType eff sel t.name ≠ TypeCheckResult.MISSED
  · have hall : POKEMON_TYPES.all (fun t =>
        !(decide (classifyType eff sel t.name =
          TypeCheckResult.INCORRECT)) &&
        !(decide (classifyType eff sel t.name =
          TypeCheckResult.MISSED))) = true := by
      rw [List.all_eq_true]
      intro t ht
      obtain ⟨hi, hmm⟩ := h1 t ht
      simp [hi, hmm]
    have hany : POKEMON_TYPES.any (fun t =>
        decide (classifyType eff sel t.name =
          TypeCheckResult.MISSED)) = false := by
      cases hy : POKEMON_TYPES.any (fun t =>
          decide (classifyType eff sel t.name =
            TypeCheckResult.MISSED)) with
      | false => rfl
      | true =>
        obtain ⟨t, ht, hmt⟩ := List.any_eq_true.mp hy
        exact absurd (of_decide_eq_true hmt) (h1 t ht).2
    rw [hall, hany]
    simp only [Bool.not_false, Bool.and_self, if_true]
    constructor
    · intro hw
      refine ⟨fun t ht => (h1 t ht).1, fun t ht => (h1 t ht).2, ?_⟩
      intro hS hnil
      rw [if_pos hS] at hw
      have := of_decide_eq_true hw
      rw [hnil] at this
      simp at this
    · rintro ⟨hinc, hmiss, hsel⟩
      by_cases hS : hasAnySuperEffective eff = true
      · rw [if_pos hS]
        apply decide_eq_true
        have hne := hsel hS
        cases sel with
        | nil => exact absurd rfl hne
        | cons s ss => simp
      · rw [if_neg hS]
  · have hall : POKEMON_TYPES.all (fun t =>
        !(decide (classifyType eff sel t.name =
          TypeCheckResult.INCORRECT)) &&
        !(decide (classifyType eff sel t.name =
          TypeCheckResult.MISSED))) = false := by
      cases hy : POKEMON_TYPES.all (fun t =>
          !(decide (classifyType eff sel t.name =
            TypeCheckResult.INCORRECT)) &&
          !(decide (classifyType eff sel t.name =
            TypeCheckResult.MISSED))) with
      | false => rfl
      | true =>
        exfalso
        apply h1
        intro t ht
        have := List.all_eq_true.mp hy t ht
        rw [Bool.and_eq_true] at this
        constructor
        · intro hc
          rw [hc] at this
          simp at this
        · intro hc
          rw [hc] at this
          simp at this
    rw [hall]
    simp only [Bool.false_and, Bool.false_eq_true, if_false]
    constructor
    · intro hw
      cases hw
    · rintro ⟨hinc, hmiss, _⟩
      exact absurd (fun t ht => ⟨hinc t ht, hmiss t ht⟩) h1

/-- C3: the quiz win decision agrees with the spec's win predicate on
every 18-entry table; selecting exactly the super-effective set always
wins; and when no type reaches multiplier 2 the empty selection wins
while any non-empty selection drawn from the registry loses. -/
theorem quiz_win_characterization (f : String → ℚ) (sel : List String) :
    (gameWon (mkEffTable f) sel = true ↔ specWin (mkEffTable f) sel) ∧
    gameWon (mkEffTable f)
      ((POKEMON_TYPES.filter (fun t => decide (2 ≤ f t.name))).map
        (fun t => t.name)) = true ∧
    ((∀ t ∈ POKEMON_TYPES, f t.name < 2) →
      gameWon (mkEffTable f) [] = true ∧
      ((∀ s ∈ sel, ∃ t ∈ POKEMON_TYPES, s = t.name) → sel ≠ [] →
        gameWon (mkEffTable f) sel = false)) := by
  have hiff : ∀ sel' : List String,
      gameWon (mkEffTable f) sel' = true ↔ specWin (mkEffTable f) sel' := by
    intro sel'
    rw [gameWon_eq_true_iff]
    unfold specWin
    constructor
    · rintro ⟨hinc, hmiss, hany⟩
      refine ⟨?_, ?_, ?_⟩
      · intro t ht hmem
        by_contra hlt
        exact hinc t ht
          (((classifyType_iff _ _ _).2.1).mpr ⟨hmem, not_le.mp hlt⟩)
      · intro t ht hse
        by_contra hmem
        exact hmiss t ht
          (((classifyType_iff _ _ _).2.2.1).mpr ⟨hmem, hse⟩)
      · rintro ⟨t, ht, hse⟩
        exact hany ((hasAnySuperEffective_mkEffTable f).mpr
          ⟨t, ht, (se_mkEffTable f t ht).mp hse⟩)
    · rintro ⟨h1, h2, h3⟩
      refine ⟨?_, ?_, ?_⟩
      · intro t ht hc
        obtain ⟨hmem, hlt⟩ := ((classifyType_iff _ _ _).2.1).mp hc
        exact absurd (h1 t ht hmem) (not_le.mpr hlt)
      · intro t ht hc
        obtain ⟨hmem, hse⟩ := ((classifyType_iff _ _ _).2.2.1).mp hc
        exact hmem (h2 t ht hse)
      · intro hS
        obtain ⟨t, ht, hse⟩ := (hasAnySuperEffective_mkEffTable f).mp hS
        exact h3 ⟨t, ht, (se_mkEffTable f t ht).mpr hse⟩
  refine ⟨hiff sel, ?_, ?_⟩
  · rw [hiff]
    refine ⟨?_, ?_, ?_⟩
    · intro t ht hmem
      rw [se_mkEffTable f t ht]
      obtain ⟨t', ht', hname⟩ := List.mem_map.mp hmem
      have ht'f := List.mem_filter.mp ht'
      have h2 := of_decide_eq_true ht'f.2
      rw [← hname]
      exact h2
    · intro t ht hse
      rw [se_mkEffTable f t ht] at hse
      exact List.mem_map_of_mem _
        (List.mem_filter.mpr ⟨ht, decide_eq_true hse⟩)
    · rintro ⟨t, ht, hse⟩ hnil
      rw [se_mkEffTable f t ht] at hse
      have hmem : t.name ∈ (POKEMON_TYPES.filter
          (fun t => decide (2 ≤ f t.name))).map (fun t => t.name) :=
        List.mem_map_of_mem _
          (List.mem_filter.mpr ⟨ht, decide_eq_true hse⟩)
      rw [hnil] at hmem
      cases hmem
  · intro hlt
    constructor
    · rw [hiff]
      refine ⟨?_, ?_, ?_⟩
      · intro t ht hmem
        cases hmem
      · intro t ht hse
        rw [se_mkEffTable f t ht] at hse
        exact absurd hse (not_le.mpr (hlt t ht))
      · rintro ⟨t, ht, hse⟩
        rw [se_mkEffTable f t ht] at hse
        exact absurd hse (not_le.mpr (hlt t ht))
    · intro hselreg hne
      have hnw : ¬ specWin (mkEffTable f) sel := by
        intro hsw
        cases sel with
        | nil => exact hne rfl
        | cons s ss =>
          obtain ⟨t, ht, rfl⟩ := hselreg s (List.mem_cons_self _ _)
          have h2 := hsw.1 t ht (List.mem_cons_self _ _)
          rw [se_mkEffTable f t ht] at h2
          exact absurd h2 (not_le.mpr (hlt t ht))
      cases hgw : gameWon (mkEffTable f) sel with
      | false => rfl
      | true => exact absurd ((hiff sel).mp hgw) hnw

/-- Witness for C3: with Water at multiplier 4 and all else 1,
selecting exactly the super-effective set wins. -/
theorem quiz_win_characterization_witness :
    gameWon (mkEffTable (fun n => if n = "Water" then (4 : ℚ) else 1))
      ((POKEMON_TYPES.filter (fun t => decide (2 ≤
        (fun n => if n = "Water" then (4 : ℚ) else 1) t.name))).map
        (fun t => t.name)) = true :=
  (quiz_win_characterization
    (fun n => if n = "Water" then (4 : ℚ) else 1) []).2.1

/-- C4: the results map labels every registry type, with CORRECT /
INCORRECT / MISSED / NONE exactly by selection and the fixed
threshold 2 on the defaulted multiplier; multiplier 4 counts as super
effective and any multiplier at most 1 never does. -/
theorem quiz_classification (f : String → ℚ) (sel : List String)
    (t : TypeData) (ht : t ∈ POKEMON_TYPES) :
    (checkResults (mkEffTable f) sel).lookup t.name =
      some (classifyType (mkEffTable f) sel t.name) ∧
    (classifyType (mkEffTable f) sel t.name = TypeCheckResult.CORRECT ↔
      t.name ∈ sel ∧ 2 ≤ effLookup (mkEffTable f) t.name) ∧
    (classifyType (mkEffTable f) sel t.name =
        TypeCheckResult.INCORRECT ↔
      t.name ∈ sel ∧ effLookup (mkEffTable f) t.name < 2) ∧
    (classifyType (mkEffTable f) sel t.name = TypeCheckResult.MISSED ↔
      t.name ∉ sel ∧ 2 ≤ effLookup (mkEffTable f) t.name) ∧
    (classifyType (mkEffTable f) sel t.name = TypeCheckResult.NONE ↔
      t.name ∉ sel ∧ effLookup (mkEffTable f) t.name < 2) ∧
    (f t.name = 4 →
      isSuperEffective (mkEffTable f) t.name = true) ∧
    (f t.name ≤ 1 →
      isSuperEffective (mkEffTable f) t.name = false) := by
  refine ⟨?_, (classifyType_iff _ _ _).1, (classifyType_iff _ _ _).2.1,
    (classifyType_iff _ _ _).2.2.1, (classifyType_iff _ _ _).2.2.2,
    ?_, ?_⟩
  · exact lookup_map_key (fun u => u.name)
      (fun u => classifyType (mkEffTable f) sel u.name)
      POKEMON_TYPES t ht pokemonNames_nodup
  · intro h4
    unfold isSuperEffective
    apply decide_eq_true
    rw [se_mkEffTable f t ht, h4]
    norm_num
  · intro h1
    unfold isSuperEffective
    apply decide_eq_false
    rw [se_mkEffTable f t ht]
    exact not_le.mpr (lt_of_le_of_lt h1 (by norm_num))

/-- Witness for C4: Water at multiplier 4 is counted super effective. -/
theorem quiz_classification_witness :
    isSuperEffective
      (mkEffTable (fun n => if n = "Water" then (4 : ℚ) else 1))
      (TypeData.mk "type-water" "Water" "#6390F0"
        (some "#FFFFFF")).name = true :=
  (quiz_classification (fun n => if n = "Water" then (4 : ℚ) else 1)
    ["Water"] (TypeData.mk "type-water" "Water" "#6390F0"
      (some "#FFFFFF")) (by decide)).2.2.2.2.2.1 rfl

/-- C10: the quiz lookup is total with default 1: an absent key and a
stored 0 both default to 1 via the falsy-or, so such a type is not
super effective and an unselected such type is labelled NONE. -/
theorem effLookup_default_total (eff : List (String × ℚ))
    (sel : List String) (name : String) :
    (eff.lookup name = none → effLookup eff name = 1) ∧
    (eff.lookup name = some 0 → effLookup eff name = 1) ∧
    ((eff.lookup name = none ∨ eff.lookup name = some 0) →
      isSuperEffective eff name = false ∧
      (name ∉ sel → classifyType eff sel name = TypeCheckResult.NONE)) := by
  have h1 : eff.lookup name = none → effLookup eff name = 1 := by
    intro h
    unfold effLookup
    rw [h]
  have h2 : eff.lookup name = some 0 → effLookup eff name = 1 := by
    intro h
    unfold effLookup
    rw [h]
    simp
  refine ⟨h1, h2, ?_⟩
  intro hd
  have he : effLookup eff name = 1 := by
    rcases hd with h | h
    · exact h1 h
    · exact h2 h
  have hse : isSuperEffective eff name = false := by
    unfold isSuperEffective
    apply decide_eq_false
    rw [he]
    norm_num
  refine ⟨hse, ?_⟩
  intro hmem
  unfold classifyType
  rw [if_neg hmem]
  simp [hse]

/-- Witness for C10: the empty map defaults Water to 1, not super
effective, labelled NONE when unselected. -/
theorem effLookup_default_total_witness :
    effLookup [] "Water" = 1 ∧
    isSuperEffective [] "Water" = false ∧
    classifyType [] [] "Water" = TypeCheckResult.NONE :=
  ⟨(effLookup_default_total [] [] "Water").1 rfl,
   ((effLookup_default_total [] [] "Water").2.2 (Or.inl rfl)).1,
   ((effLookup_default_total [] [] "Water").2.2 (Or.inl rfl)).2
     (by simp)⟩

/-! ## Cache claims -/

/-- C6: a put followed immediately by a get of the same key hits and
returns the stored value; once the window has elapsed the get misses;
the windows are 5 minutes (detail records) and 24 hours (list data) in
milliseconds; and an expired entry makes a non-preload detail load
re-fetch. -/
theorem cache_put_get_expiry {α : Type} (cache : CacheMap α)
    (key : String) (v : α) (t now w : ℕ) :
    (0 < w → cacheGet (cachePut cache key v t) key t w = some v) ∧
    (t + w ≤ now → cacheGet (cachePut cache key v t) key now w = none) ∧
    CACHE_EXPIRY_MS = 300000 ∧ CACHE_DURATION_MS = 86400000 ∧
    (∀ (oracle : String → Option α) (identifier : String)
      (e : CacheEntry α),
      cache (jsToLower identifier) = some e →
      e.timestamp + CACHE_EXPIRY_MS ≤ now →
      (fetchPokemonDataByNameOrId oracle cache identifier
        false now).didFetch = true) := by
  refine ⟨?_, ?_, by norm_num [CACHE_EXPIRY_MS],
    by norm_num [CACHE_DURATION_MS], ?_⟩
  · intro hw
    unfold cacheGet cachePut
    rw [if_pos rfl]
    show (if t - t < w then some v else none) = some v
    rw [if_pos (show t - t < w by omega)]
  · intro hel
    unfold cacheGet cachePut
    rw [if_pos rfl]
    show (if now - t < w then some v else none) = none
    rw [if_neg (show ¬(now - t < w) by omega)]
  · intro oracle identifier e he hexp
    have hnf : ¬(now - e.timestamp < CACHE_EXPIRY_MS) := by omega
    simp only [fetchPokemonDataByNameOrId, he, if_neg hnf]
    cases ho : oracle (jsToLower identifier) <;> simp [ho]

/-- Witness for C6: put at time 1000, get at 1000 hits, get at
1000 + window misses. -/
theorem cache_put_get_expiry_witness :
    cacheGet (cachePut (fun _ => none) "bulbasaur" (0 : ℕ) 1000)
      "bulbasaur" 1000 CACHE_EXPIRY_MS = some 0 ∧
    cacheGet (cachePut (fun _ => none) "bulbasaur" (0 : ℕ) 1000)
      "bulbasaur" (1000 + CACHE_EXPIRY_MS) CACHE_EXPIRY_MS = none :=
  ⟨(cache_put_get_expiry (fun _ => none) "bulbasaur" 0 1000 1000
      CACHE_EXPIRY_MS).1 (by norm_num [CACHE_EXPIRY_MS]),
   (cache_put_get_expiry (fun _ => none) "bulbasaur" 0 1000
      (1000 + CACHE_EXPIRY_MS) CACHE_EXPIRY_MS).2.1 (Nat.le_refl _)⟩

/-- C9: a preload call that finds any entry for its key (fresh or
stale) returns without fetching and leaves the cache unchanged; a
preload call never removes or overwrites any existing entry; and a call
that did overwrite an existing entry was a non-preload call. -/
theorem preload_no_clobber {α : Type} (oracle : String → Option α)
    (cache : CacheMap α) (identifier : String) (now : ℕ) :
    (∀ e, cache (jsToLower identifier) = some e →
      (fetchPokemonDataByNameOrId oracle cache identifier
        true now).didFetch = false ∧
      (fetchPokemonDataByNameOrId oracle cache identifier
        true now).cache = cache) ∧
    (∀ k e, cache k = some e →
      (fetchPokemonDataByNameOrId oracle cache identifier
        true now).cache k = some e) ∧
    (∀ (isPreload : Bool) k e, cache k = some e →
      (fetchPokemonDataByNameOrId oracle cache identifier
        isPreload now).cache k ≠ some e →
      isPreload = false) := by
  have hpre : ∀ e, cache (jsToLower identifier) = some e →
      fetchPokemonDataByNameOrId oracle cache identifier true now =
        ⟨some e.data, cache, false⟩ ∨
      fetchPokemonDataByNameOrId oracle cache identifier true now =
        ⟨none, cache, false⟩ := by
    intro e he
    by_cases hf : now - e.timestamp < CACHE_EXPIRY_MS
    · left
      simp only [fetchPokemonDataByNameOrId, he, if_pos hf]
    · right
      simp only [fetchPokemonDataByNameOrId, he, if_neg hf]
      simp
  refine ⟨?_, ?_, ?_⟩
  · intro e he
    rcases hpre e he with h | h <;> rw [h]
    · exact ⟨rfl, rfl⟩
    · exact ⟨rfl, rfl⟩
  · intro k e he
    cases hc : cache (jsToLower identifier) with
    | some e2 =>
      rcases hpre e2 hc with h | h <;> rw [h]
      · exact he
      · exact he
    | none =>
      have hkne : k ≠ jsToLower identifier := by
        intro hk
        rw [hk, hc] at he
        cases he
      cases ho : oracle (jsToLower identifier) with
      | some d =>
        simp only [fetchPokemonDataByNameOrId, hc, ho]
        unfold cachePut
        rw [if_neg hkne]
        exact he
      | none =>
        simp only [fetchPokemonDataByNameOrId, hc, ho]
        exact he
  · intro isPreload k e he hne
    cases isPreload with
    | false => rfl
    | true =>
      exfalso
      apply hne
      cases hc : cache (jsToLower identifier) with
      | some e2 =>
        rcases hpre e2 hc with h | h <;> rw [h]
        · exact he
        · exact he
      | none =>
        have hkne : k ≠ jsToLower identifier := by
          intro hk
          rw [hk, hc] at he
          cases he
        cases ho : oracle (jsToLower identifier) with
        | some d =>
          simp only [fetchPokemonDataByNameOrId, hc, ho]
          unfold cachePut
          rw [if_neg hkne]
          exact he
        | none =>
          simp only [fetchPokemonDataByNameOrId, hc, ho]
          exact he

/-- Witness for C9 at a cache holding a stale entry for the key. -/
theorem preload_no_clobber_witness :
    (fetchPokemonDataByNameOrId (fun _ => some (7 : ℕ))
      (fun k => if k = "bulbasaur"
        then some (CacheEntry.mk (0 : ℕ) 500) else none)
      "Bulbasaur" true 99999999).didFetch = false ∧
    (fetchPokemonDataByNameOrId (fun _ => some (7 : ℕ))
      (fun k => if k = "bulbasaur"
        then some (CacheEntry.mk (0 : ℕ) 500) else none)
      "Bulbasaur" true 99999999).cache =
      (fun k => if k = "bulbasaur"
        then some (CacheEntry.mk (0 : ℕ) 500) else none) :=
  (preload_no_clobber (fun _ => some (7 : ℕ))
    (fun k => if k = "bulbasaur"
      then some (CacheEntry.mk (0 : ℕ) 500) else none)
    "Bulbasaur" 99999999).1 (CacheEntry.mk 0 500) (by decide)

/-! ## C7: preload sequencer -/

theorem fetch_res_congr {α : Type} (o1 o2 : String → Option α)
    (cache : CacheMap α) (idf : String) (isP : Bool) (now : ℕ)
    (h : o1 (jsToLower idf) = o2 (jsToLower idf)) :
    (fetchPokemonDataByNameOrId o1 cache idf isP now).res =
      (fetchPokemonDataByNameOrId o2 cache idf isP now).res := by
  simp only [fetchPokemonDataByNameOrId]
  rw [h]

theorem load_of_fail (oracle : String → Option PokemonRecord)
    (navOracle : ℕ → Option NavLinkInfo) (cache : CacheMap PokemonRecord)
    (identifier : String) (now : ℕ)
    (h : (fetchPokemonDataByNameOrId oracle cache (jsToLower identifier)
      false now).res = none) :
    loadCurrentPokemonAndPreloadNeighbors oracle navOracle cache
      identifier now =
    { error := some ("Pokémon \"" ++ identifier ++
        "\" not found or failed to load.")
      preloads := []
      cacheAfter := (fetchPokemonDataByNameOrId oracle cache
        (jsToLower identifier) false now).cache } := by
  simp only [loadCurrentPokemonAndPreloadNeighbors, h]

theorem load_of_success (oracle : String → Option PokemonRecord)
    (navOracle : ℕ → Option NavLinkInfo) (cache : CacheMap PokemonRecord)
    (identifier : String) (now : ℕ) (d : PokemonRecord)
    (h : (fetchPokemonDataByNameOrId oracle cache (jsToLower identifier)
      false now).res = some d) :
    loadCurrentPokemonAndPreloadNeighbors oracle navOracle cache
      identifier now =
    { error := none
      preloads := (loadNeighbors oracle navOracle
        (fetchPokemonDataByNameOrId oracle cache (jsToLower identifier)
          false now).cache now d).1
      cacheAfter := (loadNeighbors oracle navOracle
        (fetchPokemonDataByNameOrId oracle cache (jsToLower identifier)
          false now).cache now d).2 } := by
  simp only [loadCurrentPokemonAndPreloadNeighbors, h]

/-- C7: the detail record of the current creature is fetched first and
decides the page error alone (a failed preload never surfaces); on main
failure no preload is attempted; every preload fetch targets a neighbor
key whose nav id passed the 1..1025 range check, whose nav info
resolved, and whose key had no cache entry at the moment of the check;
and on main success the preload keys are exactly the two guarded
neighbor attempts. -/
theorem preload_sequencer (oracle : String → Option PokemonRecord)
    (navOracle : ℕ → Option NavLinkInfo) (cache : CacheMap PokemonRecord)
    (identifier : String) (now : ℕ) :
    ((loadCurrentPokemonAndPreloadNeighbors oracle navOracle cache
        identifier now).error = none ↔
      ((fetchPokemonDataByNameOrId oracle cache (jsToLower identifier)
        false now).res.isSome = true)) ∧
    ((fetchPokemonDataByNameOrId oracle cache (jsToLower identifier)
        false now).res = none →
      (loadCurrentPokemonAndPreloadNeighbors oracle navOracle cache
        identifier now).preloads = []) ∧
    (∀ (c : CacheMap PokemonRecord) (nid : ℕ) (k : String),
      k ∈ (preloadNeighbor oracle navOracle c now nid).1 →
      1 ≤ nid ∧ nid ≤ MAX_POKEMON_ID_FOR_NAV ∧
      ∃ info, navOracle nid = some info ∧ k = jsToLower info.name ∧
        c (jsToLower info.name) = none) ∧
    (∀ d, (fetchPokemonDataByNameOrId oracle cache
        (jsToLower identifier) false now).res = some d →
      ∀ k, k ∈ (loadCurrentPokemonAndPreloadNeighbors oracle navOracle
          cache identifier now).preloads →
        ∃ (c : CacheMap PokemonRecord) (nid : ℕ),
          ((nid = d.id - 1 ∧ 1 < d.id) ∨
           (nid = d.id + 1 ∧ d.id < MAX_POKEMON_ID_FOR_NAV)) ∧
          k ∈ (preloadNeighbor oracle navOracle c now nid).1) ∧
    (∀ oracle2 : String → Option PokemonRecord,
      oracle2 (jsToLower (jsToLower identifier)) =
        oracle (jsToLower (jsToLower identifier)) →
      (loadCurrentPokemonAndPreloadNeighbors oracle2 navOracle cache
        identifier now).error =
      (loadCurrentPokemonAndPreloadNeighbors oracle navOracle cache
        identifier now).error) := by
  have hchar : ∀ (c : CacheMap PokemonRecord) (nid : ℕ) (k : String),
      k ∈ (preloadNeighbor oracle navOracle c now nid).1 →
      1 ≤ nid ∧ nid ≤ MAX_POKEMON_ID_FOR_NAV ∧
      ∃ info, navOracle nid = some info ∧ k = jsToLower info.name ∧
        c (jsToLower info.name) = none := by
    intro c nid k hk
    unfold preloadNeighbor fetchPokemonNavInfoById at hk
    by_cases hr : nid = 0 ∨ MAX_POKEMON_ID_FOR_NAV < nid
    · rw [if_pos hr] at hk
      simp at hk
    · rw [if_neg hr] at hk
      push_neg at hr
      cases hnav : navOracle nid with
      | none =>
        rw [hnav] at hk
        simp at hk
      | some info =>
        rw [hnav] at hk
        by_cases hcc : (c (jsToLower info.name)).isSome
        · simp [hcc] at hk
        · simp [hcc] at hk
          refine ⟨by omega, by omega, info, rfl, hk, ?_⟩
          exact Option.not_isSome_iff_eq_none.mp hcc
  refine ⟨?_, ?_, hchar, ?_, ?_⟩
  · cases hres : (fetchPokemonDataByNameOrId oracle cache
        (jsToLower identifier) false now).res with
    | none =>
      rw [load_of_fail oracle navOracle cache identifier now hres]
      simp
    | some d =>
      rw [load_of_success oracle navOracle cache identifier now d hres]
      simp
  · intro hres
    rw [load_of_fail oracle navOracle cache identifier now hres]
  · intro d hres k hk
    rw [load_of_success oracle navOracle cache identifier now d hres]
      at hk
    unfold loadNeighbors at hk
    rcases List.mem_append.mp hk with h1 | h2
    · by_cases hg : 1 < d.id
      · rw [if_pos hg] at h1
        exact ⟨_, d.id - 1, Or.inl ⟨rfl, hg⟩, h1⟩
      · rw [if_neg hg] at h1
        simp at h1
    · by_cases hg1 : 1 < d.id
      · by_cases hg : d.id < MAX_POKEMON_ID_FOR_NAV
        · rw [if_pos hg] at h2
          exact ⟨_, d.id + 1, Or.inr ⟨rfl, hg⟩, h2⟩
        · rw [if_neg hg] at h2
          simp at h2
      · by_cases hg : d.id < MAX_POKEMON_ID_FOR_NAV
        · rw [if_pos hg] at h2
          exact ⟨_, d.id + 1, Or.inr ⟨rfl, hg⟩, h2⟩
        · rw [if_neg hg] at h2
          simp at h2
  · intro oracle2 hagree
    have hres := fetch_res_congr oracle2 oracle cache
      (jsToLower identifier) false now hagree
    cases h2 : (fetchPokemonDataByNameOrId oracle cache
        (jsToLower identifier) false now).res with
    | none =>
      rw [load_of_fail oracle navOracle cache identifier now h2,
        load_of_fail oracle2 navOracle cache identifier now
          (by rw [hres, h2])]
    | some d =>
      rw [load_of_success oracle navOracle cache identifier now d h2,
        load_of_success oracle2 navOracle cache identifier now d
          (by rw [hres, h2])]

/-- Witness for C7: with every detail fetch failing, the main load
fails and no preload is attempted. -/
theorem preload_sequencer_witness :
    (loadCurrentPokemonAndPreloadNeighbors (fun _ => none)
      (fun n => if n = 24 then some (NavLinkInfo.mk 24 "arbok" "arbok")
        else none)
      (fun _ => none) "pikachu" 0).preloads = [] :=
  (preload_sequencer (fun _ => none)
    (fun n => if n = 24 then some (NavLinkInfo.mk 24 "arbok" "arbok")
      else none)
    (fun _ => none) "pikachu" 0).2.1 rfl

/-! ## C8: bounded retry loop -/

theorem startNewGameLoop_all_fail (outcomes : ℕ → AttemptOutcome) :
    ∀ (r i : ℕ), (∀ j, j < r → ∀ p, outcomes (i + j) ≠ .success p) →
      startNewGameLoop outcomes r i =
        ⟨none, some startNewGameErrorText⟩ := by
  intro r
  induction r with
  | zero =>
    intro i h
    rfl
  | succ r ih =>
    intro i h
    have hshift : ∀ j, j < r → ∀ p,
        outcomes (i + 1 + j) ≠ AttemptOutcome.success p := by
      intro j hj p
      have hh := h (j + 1) (by omega) p
      have he : i + (j + 1) = i + 1 + j := by omega
      rwa [he] at hh
    cases ho : outcomes i with
    | success p =>
      exfalso
      apply h 0 (Nat.succ_pos r) p
      rwa [Nat.add_zero]
    | notFound =>
      simp only [startNewGameLoop, ho]
      exact ih (i + 1) hshift
    | httpError n =>
      simp only [startNewGameLoop, ho]
      exact ih (i + 1) hshift
    | noSprite =>
      simp only [startNewGameLoop, ho]
      exact ih (i + 1) hshift
    | fetchFailure =>
      simp only [startNewGameLoop, ho]
      exact ih (i + 1) hshift

theorem startNewGameLoop_first_success (outcomes : ℕ → AttemptOutcome)
    (p : PokemonRecord) :
    ∀ (r i j : ℕ), j < r → outcomes (i + j) = .success p →
      (∀ k, k < j → ∀ q, outcomes (i + k) ≠ .success q) →
      startNewGameLoop outcomes r i = ⟨some p, none⟩ := by
  intro r
  induction r with
  | zero =>
    intro i j hj
    exact absurd hj (Nat.not_lt_zero j)
  | succ r ih =>
    intro i j hj hs hmin
    cases j with
    | zero =>
      rw [Nat.add_zero] at hs
      simp only [startNewGameLoop, hs]
    | succ j =>
      have hs2 : outcomes (i + 1 + j) = AttemptOutcome.success p := by
        have he : i + (j + 1) = i + 1 + j := by omega
        rwa [he] at hs
      have hmin2 : ∀ k, k < j → ∀ q,
          outcomes (i + 1 + k) ≠ AttemptOutcome.success q := by
        intro k hk q
        have hh := hmin (k + 1) (by omega) q
        have he : i + (k + 1) = i + 1 + k := by omega
        rwa [he] at hh
      have hrec := ih (i + 1) j (by omega) hs2 hmin2
      cases ho : outcomes i with
      | success q =>
        exfalso
        apply hmin 0 (Nat.succ_pos j) q
        rwa [Nat.add_zero]
      | notFound => simp only [startNewGameLoop, ho]; exact hrec
      | httpError n => simp only [startNewGameLoop, ho]; exact hrec
      | noSprite => simp only [startNewGameLoop, ho]; exact hrec
      | fetchFailure => simp only [startNewGameLoop, ho]; exact hrec

theorem startNewGameLoop_congr (o1 o2 : ℕ → AttemptOutcome) :
    ∀ (r i : ℕ), (∀ j, j < r → o2 (i + j) = o1 (i + j)) →
      startNewGameLoop o2 r i = startNewGameLoop o1 r i := by
  intro r
  induction r with
  | zero =>
    intro i h
    rfl
  | succ r ih =>
    intro i h
    have h0 : o2 i = o1 i := by
      have hh := h 0 (Nat.succ_pos r)
      rwa [Nat.add_zero] at hh
    have hshift : ∀ j, j < r → o2 (i + 1 + j) = o1 (i + 1 + j) := by
      intro j hj
      have hh := h (j + 1) (by omega)
      have he : i + (j + 1) = i + 1 + j := by omega
      rwa [he] at hh
    simp only [startNewGameLoop, h0]
    cases ho : o1 i with
    | success p => rfl
    | notFound => exact ih (i + 1) hshift
    | httpError n => exact ih (i + 1) hshift
    | noSprite => exact ih (i + 1) hshift
    | fetchFailure => exact ih (i + 1) hshift

/-- C8: the random-creature loop makes at most 5 attempts (its result
only depends on the first 5 outcomes); if some attempt among the first
5 succeeds and the earlier ones failed, the loop stops there with the
creature and no error; if all 5 attempts fail, it surfaces the terminal
error message. -/
theorem startNewGame_bounded_retry (outcomes : ℕ → AttemptOutcome) :
    ((∀ j, j < MAX_GAME_ATTEMPTS → ∀ p : PokemonRecord,
        outcomes j ≠ .success p) →
      startNewGame outcomes = ⟨none, some startNewGameErrorText⟩) ∧
    (∀ j (p : PokemonRecord), j < MAX_GAME_ATTEMPTS →
      outcomes j = .success p →
      (∀ k, k < j → ∀ q : PokemonRecord, outcomes k ≠ .success q) →
      startNewGame outcomes = ⟨some p, none⟩) ∧
    (∀ outcomes2 : ℕ → AttemptOutcome,
      (∀ j, j < MAX_GAME_ATTEMPTS → outcomes2 j = outcomes j) →
      startNewGame outcomes2 = startNewGame outcomes) := by
  refine ⟨?_, ?_, ?_⟩
  · intro h
    exact startNewGameLoop_all_fail outcomes MAX_GAME_ATTEMPTS 0
      (fun j hj p => by
        have hh := h j hj p
        rwa [Nat.zero_add])
  · intro j p hj hs hmin
    exact startNewGameLoop_first_success outcomes p MAX_GAME_ATTEMPTS 0
      j hj (by rwa [Nat.zero_add]) (fun k hk q => by
        have hh := hmin k hk q
        rwa [Nat.zero_add])
  · intro outcomes2 h
    exact startNewGameLoop_congr outcomes outcomes2 MAX_GAME_ATTEMPTS 0
      (fun j hj => by
        have hh := h j hj
        rwa [Nat.zero_add])

/-- A run whose first two attempts hit transient failures and whose
third succeeds. -/
def demoOutcomes : ℕ → AttemptOutcome := fun i =>
  if i = 2 then .success (PokemonRecord.mk 25 "pikachu") else .notFound

/-- Witness for C8: the demo run stops at the third attempt with the
creature loaded and no error. -/
theorem startNewGame_bounded_retry_witness :
    startNewGame demoOutcomes =
      ⟨some (PokemonRecord.mk 25 "pikachu"), none⟩ :=
  (startNewGame_bounded_retry demoOutcomes).2.1 2
    (PokemonRecord.mk 25 "pikachu")
    (by norm_num [MAX_GAME_ATTEMPTS]) rfl
    (fun k hk q hq => by
      have hne : k ≠ 2 := by omega
      unfold demoOutcomes at hq
      rw [if_neg hne] at hq
      exact AttemptOutcome.noConfusion hq)

end PokemonWebsite
